import Mathlib

/-!
Shallow embedding of the `high_precision_clock` crate (`src/lib.rs`) and proofs
about its calibration and drift-correction engine.

The crate compiles in one of two mutually exclusive configurations:

* TSC mode (`tsc` feature on x86_64 Linux): the counter is `_rdtsc()`, elapsed
  cycles are converted to nanoseconds through the `f64` field `cpu_frequency_hz`
  (namespace `TscMode` below);
* fallback mode: the counter is `std::time::Instant`, whose elapsed value is
  already in nanoseconds (namespace `FallbackMode` below).

Modelling conventions:

* `DateTime<Utc>` values are modelled as nanoseconds since the Unix epoch (an
  integer).  `chrono`'s `DateTime + TimeDelta`, which panics when the sum leaves
  the representable datetime range, is modelled by `chronoAdd`; the plain `now`
  below is the total value-level function and `now_checked` makes the partiality
  explicit.
* `u64`/`u128`/`i64` arithmetic is modelled on ℕ/ℤ with explicit wrap-around or
  saturation where Rust release-mode semantics wraps (`u64` subtraction, `u128 as
  i64`) or saturates (`f64 as i64`).
* `f64` values (`cpu_frequency_hz` and the intermediate quotient and product in
  `now`) are modelled as exact rationals.  Every IEEE-754 rounding step is weakly
  monotone, so the order-theoretic facts proved of the exact model transfer to
  the floating-point computation.
* Compile-time `cfg` choices and the results of platform reads
  (`/proc/cpuinfo`, the system wall clock, the counter) are passed as explicit
  parameters.
-/

/-- The `u64` modulus, `2 ^ 64`. -/
def U64_MOD : ℕ := 18446744073709551616

/-- The smallest `i64` value, `-(2 ^ 63)`. -/
def I64_MIN : ℤ := -9223372036854775808

/-- The largest `i64` value, `2 ^ 63 - 1`. -/
def I64_MAX : ℤ := 9223372036854775807

/-- Rust release-mode `u64` subtraction `a - b`: two's-complement wrap-around. -/
def u64WrapSub (a b : ℕ) : ℕ := (a + U64_MOD - b) % U64_MOD

/-- Rust `as i64` applied to a `u128` value (`elapsed.as_nanos() as i64` in the
fallback `now()`): keep the low 64 bits and reinterpret them as two's
complement. -/
def u128AsI64 (n : ℕ) : ℤ :=
  if n % U64_MOD < 9223372036854775808 then ((n % U64_MOD : ℕ) : ℤ)
  else ((n % U64_MOD : ℕ) : ℤ) - (U64_MOD : ℤ)

/-- Truncation toward zero of an exact rational: the rounding Rust's `f64 as i64`
cast applies before saturating. -/
def ratTrunc (q : ℚ) : ℤ := if 0 ≤ q then ⌊q⌋ else ⌈q⌉

/-- Rust `f64 as i64`: truncate toward zero and saturate to the `i64` range. -/
def f64AsI64 (q : ℚ) : ℤ := max I64_MIN (min I64_MAX (ratTrunc q))

/-- `chrono::TimeDelta::num_nanoseconds()`: the exact nanosecond count of the
delta when it is representable as an `i64`, `None` otherwise. -/
def num_nanoseconds (d : ℤ) : Option ℤ :=
  if I64_MIN ≤ d ∧ d ≤ I64_MAX then some d else none

/-- Nanoseconds since the Unix epoch of the largest `chrono` datetime,
`262143-12-31T23:59:59.999999999`. -/
def chronoMaxNs : ℤ := 8210298412799999999999

/-- Nanoseconds since the Unix epoch of the smallest `chrono` datetime,
`-262144-01-01T00:00:00`. -/
def chronoMinNs : ℤ := -8334632937600000000000

/-- `chrono`'s `DateTime<Utc> + TimeDelta`: `none` where `chrono` panics because
the sum leaves the representable datetime range. -/
def chronoAdd (base d : ℤ) : Option ℤ :=
  if chronoMinNs ≤ base + d ∧ base + d ≤ chronoMaxNs then some (base + d) else none

/-- Severity at which `reset_baselines` reports the observed drift. -/
inductive LogLevel where
  | trace
  | warn
deriving DecidableEq

/-- Rust release-mode `i64::abs`: the two's-complement negation of `i64::MIN`
wraps back to `i64::MIN` itself; every other value gets its exact absolute
value. -/
def i64WrapAbs (d : ℤ) : ℤ := if d = I64_MIN then I64_MIN else |d|

/-- Lines 234-239 of `reset_baselines` (identical in both configurations):
`drift.num_nanoseconds().unwrap_or_default().abs()` — with the release-mode
wrapping `abs` — compared against `warning_threshold_ns`; at or above the
threshold the event is a `warn!`, strictly below it is a `trace!`. -/
def drift_level (warning_threshold_ns : ℤ) (drift : ℤ) : LogLevel :=
  if warning_threshold_ns ≤ i64WrapAbs ((num_nanoseconds drift).getD 0) then LogLevel.warn
  else LogLevel.trace

namespace TscMode

/-- `HighPrecisionClock` compiled with the `tsc` feature on x86_64 Linux.
`base_datetime` is the `DateTime<Utc>` baseline as nanoseconds since the epoch;
`cpu_frequency_hz` is the `f64` frequency as an exact rational. -/
structure HighPrecisionClock where
  base_tsc : ℕ
  base_datetime : ℤ
  cpu_frequency_hz : ℚ
  warning_threshold_ns : ℤ
deriving DecidableEq

/-- `now()` on the TSC path: `current_tsc` is the `_rdtsc()` reading taken
during the call; elapsed cycles (wrapping `u64` subtraction) are divided by the
frequency, scaled to nanoseconds, cast `as i64` and added to the baseline. -/
def HighPrecisionClock.now (s : HighPrecisionClock) (current_tsc : ℕ) : ℤ :=
  s.base_datetime +
    f64AsI64 ((u64WrapSub current_tsc s.base_tsc : ℚ) / s.cpu_frequency_hz * 1000000000)

/-- `now()` with `chrono`'s panicking addition made explicit: `none` exactly
where the Rust call would panic instead of returning a timestamp. -/
def HighPrecisionClock.now_checked (s : HighPrecisionClock) (current_tsc : ℕ) : Option ℤ :=
  chronoAdd s.base_datetime
    (f64AsI64 ((u64WrapSub current_tsc s.base_tsc : ℚ) / s.cpu_frequency_hz * 1000000000))

/-- `reset_baselines`: read the system clock (`sys_time`), compute the drift
against `now()` evaluated at the TSC reading `tsc_at_now`, overwrite
`base_datetime` with `sys_time` and `base_tsc` with the fresh reading `tsc_new`,
then classify the drift magnitude (the classification reads
`warning_threshold_ns`, which the reset does not touch). -/
def HighPrecisionClock.reset_baselines (s : HighPrecisionClock) (sys_time : ℤ)
    (tsc_at_now tsc_new : ℕ) : HighPrecisionClock × LogLevel :=
  let drift : ℤ := sys_time - s.now tsc_at_now
  ({ s with base_datetime := sys_time, base_tsc := tsc_new },
    drift_level s.warning_threshold_ns drift)

end TscMode

namespace FallbackMode

/-- `HighPrecisionClock` compiled without the `tsc` feature: `base_instant` is
the `std::time::Instant` baseline as a point (in nanoseconds) on the monotonic
timeline. -/
structure HighPrecisionClock where
  base_instant : ℕ
  base_datetime : ℤ
  warning_threshold_ns : ℤ
deriving DecidableEq

/-- `now()` on the fallback path: `mono_now` is the monotonic reading taken
during the call; `base_instant.elapsed()` saturates at zero (ℕ subtraction), its
`as_nanos()` is cast `as i64` and added to the baseline. -/
def HighPrecisionClock.now (s : HighPrecisionClock) (mono_now : ℕ) : ℤ :=
  s.base_datetime + u128AsI64 (mono_now - s.base_instant)

/-- `now()` with `chrono`'s panicking addition made explicit. -/
def HighPrecisionClock.now_checked (s : HighPrecisionClock) (mono_now : ℕ) : Option ℤ :=
  chronoAdd s.base_datetime (u128AsI64 (mono_now - s.base_instant))

/-- `reset_baselines` in the fallback configuration: the drift is computed with
`now()` at the monotonic reading `mono_at_now`, then `base_datetime` and
`base_instant` are overwritten (the latter with the fresh reading `mono_new`). -/
def HighPrecisionClock.reset_baselines (s : HighPrecisionClock) (sys_time : ℤ)
    (mono_at_now mono_new : ℕ) : HighPrecisionClock × LogLevel :=
  let drift : ℤ := sys_time - s.now mono_at_now
  ({ s with base_datetime := sys_time, base_instant := mono_new },
    drift_level s.warning_threshold_ns drift)

end FallbackMode

/-- Rust `str::contains` on string slices: substring containment. -/
def rustStrContains (haystack needle : String) : Bool :=
  decide (needle.toList <:+: haystack.toList)

/-- `check_invariant_tsc`: `tsc_mode` is the compile-time `cfg` (the `tsc`
feature on x86_64 Linux); `cpuinfo_read` is the result of
`std::fs::read_to_string("/proc/cpuinfo")`, `none` when the read fails.  Outside
TSC mode the check returns `None`; in TSC mode a successful read reports whether
both the `constant_tsc` and `nonstop_tsc` flags occur, and a failed read reports
`Some(false)`. -/
def check_invariant_tsc (tsc_mode : Bool) (cpuinfo_read : Option String) : Option Bool :=
  if tsc_mode then
    match cpuinfo_read with
    | some cpuinfo =>
        some (rustStrContains cpuinfo "constant_tsc" && rustStrContains cpuinfo "nonstop_tsc")
    | none => some false
  else none

/-- Outcome of one iteration of the (synchronous) `periodic_drift_correction`
loop body, after the `sleep`. -/
structure TickResult where
  state : TscMode.HighPrecisionClock
  error_logged : Bool
  loop_continues : Bool

/-- One tick of the synchronous `periodic_drift_correction` loop:
`lock_acquired` is whether `clock.write()` succeeded.  On failure the error is
logged and the iteration `continue`s with the state untouched; on success
`reset_baselines` runs under the write lock.  The `loop` has no exit in either
branch. -/
def periodic_drift_correction_tick (lock_acquired : Bool)
    (s : TscMode.HighPrecisionClock) (sys_time : ℤ) (tsc_at_now tsc_new : ℕ) : TickResult :=
  if lock_acquired then
    { state := (s.reset_baselines sys_time tsc_at_now tsc_new).1
      error_logged := false
      loop_continues := true }
  else
    { state := s
      error_logged := true
      loop_continues := true }

/-- Reading of §4.3(c)/(d) of the specification, stated over the code: some
drift-correction tick (under some lock outcome, state — including any
`warning_threshold_ns` configuration — and inputs) adjusts the conversion
factor, i.e. an error-feedback recalibration is selectable.  The constructor
`new(warning_threshold_ns, calibration_int)` offers no further configuration
surface, so the quantification over states and inputs covers every
configuration the code accepts. -/
def errorFeedbackAdjustsConversionFactor : Prop :=
  ∃ (lock_acquired : Bool) (s : TscMode.HighPrecisionClock) (sys_time : ℤ) (c1 c2 : ℕ),
    (periodic_drift_correction_tick lock_acquired s sys_time c1 c2).state.cpu_frequency_hz ≠
      s.cpu_frequency_hz

/-- A single field assignment performed by the fallback `reset_baselines` on the
shared `HighPrecisionClock` value. -/
inductive FieldWrite where
  | set_base_datetime (v : ℤ)
  | set_base_instant (v : ℕ)
deriving DecidableEq

/-- Apply one field assignment. -/
def applyWrite (s : FallbackMode.HighPrecisionClock) : FieldWrite → FallbackMode.HighPrecisionClock
  | FieldWrite.set_base_datetime v => { s with base_datetime := v }
  | FieldWrite.set_base_instant v => { s with base_instant := v }

/-- The individual field assignments `reset_baselines` performs on the shared
state, in source order: `self.base_datetime = sys_time;` (line 222) followed by
`self.base_instant = Instant::now();` (line 226). -/
def reset_baseline_writes (sys_time : ℤ) (mono_new : ℕ) : List FieldWrite :=
  [FieldWrite.set_base_datetime sys_time, FieldWrite.set_base_instant mono_new]

/-- The supervisor's exclusive critical section on the shared `RwLock`: the
write lock is held from `lock_acquire` to `lock_release` and the two field
assignments of `reset_baselines` happen inside it, in source order. -/
structure WriterInterval where
  lock_acquire : ℕ
  write_datetime : ℕ
  write_instant : ℕ
  lock_release : ℕ
  acquire_le : lock_acquire ≤ write_datetime
  writes_ordered : write_datetime < write_instant
  release_ge : write_instant ≤ lock_release

/-- The clock value a reader observes at instant `r`: the original state with
every field assignment issued at or before `r` applied. -/
def observedAt (s : FallbackMode.HighPrecisionClock) (sys_time : ℤ) (mono_new : ℕ)
    (w : WriterInterval) (r : ℕ) : FallbackMode.HighPrecisionClock :=
  List.foldl applyWrite s
    (if r < w.write_datetime then []
     else if r < w.write_instant then (reset_baseline_writes sys_time mono_new).take 1
     else reset_baseline_writes sys_time mono_new)

/-- Sample TSC-mode clock used by concrete witnesses. -/
def tscSample : TscMode.HighPrecisionClock :=
  { base_tsc := 5, base_datetime := 100, cpu_frequency_hz := 1, warning_threshold_ns := 10 }

/-- Sample fallback-mode clock used by concrete witnesses. -/
def fbSample : FallbackMode.HighPrecisionClock :=
  { base_instant := 0, base_datetime := 100, warning_threshold_ns := 10 }

/-- Sample writer critical section used by concrete witnesses: lock held over
`[2, 6]`, field writes at instants 3 and 5. -/
def sampleWriterInterval : WriterInterval where
  lock_acquire := 2
  write_datetime := 3
  write_instant := 5
  lock_release := 6
  acquire_le := by omega
  writes_ordered := by omega
  release_ge := by omega

theorem u64WrapSub_self (b : ℕ) : u64WrapSub b b = 0 := by
  unfold u64WrapSub
  rw [Nat.add_sub_cancel_left, Nat.mod_self]

theorem u64WrapSub_of_le {a b : ℕ} (hba : b ≤ a) (h : a - b < U64_MOD) :
    u64WrapSub a b = a - b := by
  unfold u64WrapSub U64_MOD at *
  omega

theorem u128AsI64_of_lt {n : ℕ} (h : n < 9223372036854775808) : u128AsI64 n = n := by
  have hm : n % U64_MOD = n := Nat.mod_eq_of_lt (by unfold U64_MOD; omega)
  unfold u128AsI64
  rw [hm, if_pos h]

theorem u128AsI64_bounds (n : ℕ) : I64_MIN ≤ u128AsI64 n ∧ u128AsI64 n ≤ I64_MAX := by
  have hlt : n % U64_MOD < U64_MOD := Nat.mod_lt n (by unfold U64_MOD; omega)
  unfold u128AsI64 I64_MIN I64_MAX
  unfold U64_MOD at *
  split <;> constructor <;> omega

theorem ratTrunc_mono {q1 q2 : ℚ} (h : q1 ≤ q2) : ratTrunc q1 ≤ ratTrunc q2 := by
  by_cases h1 : 0 ≤ q1 <;> by_cases h2 : 0 ≤ q2 <;> simp [ratTrunc, h1, h2]
  · exact Int.floor_le_floor h
  · exact absurd (h1.trans h) h2
  · exact le_trans
      (show ⌈q1⌉ ≤ (0:ℤ) from Int.ceil_le.mpr (by exact_mod_cast le_of_not_le h1))
      (show (0:ℤ) ≤ ⌊q2⌋ from Int.le_floor.mpr (by exact_mod_cast h2))
  · exact Int.ceil_le_ceil h

theorem f64AsI64_mono {q1 q2 : ℚ} (h : q1 ≤ q2) : f64AsI64 q1 ≤ f64AsI64 q2 :=
  max_le_max le_rfl (min_le_min le_rfl (ratTrunc_mono h))

theorem f64AsI64_bounds (q : ℚ) : I64_MIN ≤ f64AsI64 q ∧ f64AsI64 q ≤ I64_MAX :=
  ⟨le_max_left _ _, max_le (by unfold I64_MIN I64_MAX; omega) (min_le_left _ _)⟩

theorem TscMode.HighPrecisionClock.now_base (s : TscMode.HighPrecisionClock) :
    s.now s.base_tsc = s.base_datetime := by
  unfold TscMode.HighPrecisionClock.now
  rw [u64WrapSub_self]
  norm_num [f64AsI64, ratTrunc, I64_MIN, I64_MAX]

/-- C1: for any two fast-path reads on the same clock state (so with no
recalibration in between), if the underlying counter/monotonic source is
non-decreasing between the calls — and the readings lie in the counter's
domain: at or after the baseline, below `2 ^ 64` for the `u64` TSC, with an
`i64`-representable elapsed time for the fallback's `as i64` cast — then the
second timestamp is at least the first, in both configurations. -/
theorem C1_now_monotonic :
    (∀ (s : FallbackMode.HighPrecisionClock) (m1 m2 : ℕ),
      s.base_instant ≤ m1 → m1 ≤ m2 → m2 - s.base_instant < 9223372036854775808 →
      s.now m1 ≤ s.now m2) ∧
    (∀ (s : TscMode.HighPrecisionClock) (c1 c2 : ℕ),
      0 < s.cpu_frequency_hz → s.base_tsc ≤ c1 → c1 ≤ c2 → c2 < U64_MOD →
      s.now c1 ≤ s.now c2) := by
  constructor
  · intro s m1 m2 hb h12 hlt
    unfold FallbackMode.HighPrecisionClock.now
    have h1 : m1 - s.base_instant < 9223372036854775808 := lt_of_le_of_lt (by omega) hlt
    rw [u128AsI64_of_lt h1, u128AsI64_of_lt hlt]
    omega
  · intro s c1 c2 hf hb h12 hlt
    unfold TscMode.HighPrecisionClock.now
    have hb2 : s.base_tsc ≤ c2 := le_trans hb h12
    have hw1 : u64WrapSub c1 s.base_tsc = c1 - s.base_tsc :=
      u64WrapSub_of_le hb (by unfold U64_MOD at *; omega)
    have hw2 : u64WrapSub c2 s.base_tsc = c2 - s.base_tsc :=
      u64WrapSub_of_le hb2 (by unfold U64_MOD at *; omega)
    rw [hw1, hw2]
    have hcast : ((c1 - s.base_tsc : ℕ) : ℚ) ≤ ((c2 - s.base_tsc : ℕ) : ℚ) := by
      exact_mod_cast Nat.sub_le_sub_right h12 _
    have hdiv := div_le_div_of_nonneg_right hcast hf.le
    have hmul := mul_le_mul_of_nonneg_right hdiv (by norm_num : (0:ℚ) ≤ 1000000000)
    exact add_le_add_left (f64AsI64_mono hmul) _

/-- Witness for C1 at concrete inputs. -/
theorem C1_now_monotonic_witness :
    fbSample.now 3 ≤ fbSample.now 7 ∧ tscSample.now 5 ≤ tscSample.now 5 :=
  ⟨C1_now_monotonic.1 fbSample 3 7 (by decide) (by decide) (by decide),
   C1_now_monotonic.2 tscSample 5 5 (by decide) (by decide) (by decide) (by decide)⟩

/-- C2: in `reset_baselines` the drift magnitude is the absolute difference
between the system wall clock and the fast-path prediction of the pre-reset
state (no overwritten field enters it), and — when that magnitude is
representable as an `i64` nanosecond count, i.e. the drift lies strictly above
`i64::MIN` (where the release-mode `abs` would wrap) and at most `i64::MAX` —
it is classified against `warning_threshold_ns`: strictly below the threshold
the event is a trace-level report, at or above it a warning-level report. -/
theorem C2_drift_classified_against_pre_reset_state :
    ∀ (s : TscMode.HighPrecisionClock) (sys_time : ℤ) (tsc_at_now tsc_new : ℕ),
      I64_MIN < sys_time - s.now tsc_at_now → sys_time - s.now tsc_at_now ≤ I64_MAX →
      ((s.reset_baselines sys_time tsc_at_now tsc_new).2 = LogLevel.warn ↔
        s.warning_threshold_ns ≤ |sys_time - s.now tsc_at_now|) ∧
      ((s.reset_baselines sys_time tsc_at_now tsc_new).2 = LogLevel.trace ↔
        |sys_time - s.now tsc_at_now| < s.warning_threshold_ns) := by
  intro s sys_time c1 c2 hmin hmax
  have hval : num_nanoseconds (sys_time - s.now c1) = some (sys_time - s.now c1) := by
    unfold num_nanoseconds
    exact if_pos ⟨hmin.le, hmax⟩
  have habs : i64WrapAbs (sys_time - s.now c1) = |sys_time - s.now c1| := by
    refine if_neg (fun he => ?_)
    rw [he] at hmin
    exact lt_irrefl _ hmin
  simp only [TscMode.HighPrecisionClock.reset_baselines, drift_level, hval, Option.getD_some,
    habs]
  by_cases h : s.warning_threshold_ns ≤ |sys_time - s.now c1|
  · rw [if_pos h]
    exact ⟨by simp [h], by simp [not_lt.mpr h]⟩
  · rw [if_neg h]
    exact ⟨by simp [h], by simp [not_le.mp h]⟩

/-- Witness for C2: a drift of 3 ns against threshold 10 is a trace-level
report. -/
theorem C2_witness :
    (I64_MIN < (103:ℤ) - tscSample.now 5 ∧ (103:ℤ) - tscSample.now 5 ≤ I64_MAX) ∧
    ((tscSample.reset_baselines 103 5 9).2 = LogLevel.trace ↔
      |(103:ℤ) - tscSample.now 5| < tscSample.warning_threshold_ns) := by
  have hnow : tscSample.now 5 = 100 := TscMode.HighPrecisionClock.now_base tscSample
  have h1 : I64_MIN < (103:ℤ) - tscSample.now 5 := by rw [hnow]; decide
  have h2 : (103:ℤ) - tscSample.now 5 ≤ I64_MAX := by rw [hnow]; decide
  exact ⟨⟨h1, h2⟩, (C2_drift_classified_against_pre_reset_state tscSample 103 5 9 h1 h2).2⟩

/-- C3: the fast read path never fails: for every clock state whose baseline
datetime lies a full `i64` duration inside `chrono`'s representable range (as
any baseline taken from `Utc::now()` does, by about 260 000 years) and every
counter reading, the checked fast path returns a timestamp — exactly the value
of the total model `now`.  The `Duration::nanoseconds` argument is an `i64`,
so the sum cannot leave the range and the only potential panic is ruled out. -/
theorem C3_now_always_succeeds :
    (∀ (s : FallbackMode.HighPrecisionClock) (mono_now : ℕ),
      chronoMinNs + 9223372036854775808 ≤ s.base_datetime →
      s.base_datetime ≤ chronoMaxNs - 9223372036854775808 →
      s.now_checked mono_now = some (s.now mono_now)) ∧
    (∀ (s : TscMode.HighPrecisionClock) (current_tsc : ℕ),
      chronoMinNs + 9223372036854775808 ≤ s.base_datetime →
      s.base_datetime ≤ chronoMaxNs - 9223372036854775808 →
      s.now_checked current_tsc = some (s.now current_tsc)) := by
  constructor
  · intro s m hlo hhi
    obtain ⟨hd1, hd2⟩ := u128AsI64_bounds (m - s.base_instant)
    have hcond : chronoMinNs ≤ s.base_datetime + u128AsI64 (m - s.base_instant) ∧
        s.base_datetime + u128AsI64 (m - s.base_instant) ≤ chronoMaxNs := by
      simp only [chronoMinNs, chronoMaxNs] at hlo hhi ⊢
      simp only [I64_MIN] at hd1
      simp only [I64_MAX] at hd2
      omega
    unfold FallbackMode.HighPrecisionClock.now_checked FallbackMode.HighPrecisionClock.now chronoAdd
    rw [if_pos hcond]
  · intro s c hlo hhi
    obtain ⟨hd1, hd2⟩ :=
      f64AsI64_bounds ((u64WrapSub c s.base_tsc : ℚ) / s.cpu_frequency_hz * 1000000000)
    have hcond : chronoMinNs ≤ s.base_datetime +
          f64AsI64 ((u64WrapSub c s.base_tsc : ℚ) / s.cpu_frequency_hz * 1000000000) ∧
        s.base_datetime +
          f64AsI64 ((u64WrapSub c s.base_tsc : ℚ) / s.cpu_frequency_hz * 1000000000) ≤
          chronoMaxNs := by
      simp only [chronoMinNs, chronoMaxNs] at hlo hhi ⊢
      simp only [I64_MIN] at hd1
      simp only [I64_MAX] at hd2
      omega
    unfold TscMode.HighPrecisionClock.now_checked TscMode.HighPrecisionClock.now chronoAdd
    rw [if_pos hcond]

/-- Witness for C3 at concrete states and counter readings. -/
theorem C3_witness :
    (chronoMinNs + 9223372036854775808 ≤ fbSample.base_datetime ∧
      fbSample.base_datetime ≤ chronoMaxNs - 9223372036854775808) ∧
    fbSample.now_checked 3 = some (fbSample.now 3) ∧
    tscSample.now_checked 7 = some (tscSample.now 7) :=
  ⟨⟨by decide, by decide⟩,
   C3_now_always_succeeds.1 fbSample 3 (by decide) (by decide),
   C3_now_always_succeeds.2 tscSample 7 (by decide) (by decide)⟩

/-- C4: a hard reset replaces exactly the counter baseline and the wall-clock
baseline with the fresh paired sample; the conversion factor
(`cpu_frequency_hz`) and `warning_threshold_ns` are left unchanged (stated for
both configurations; only the TSC one carries a conversion factor). -/
theorem C4_reset_replaces_only_baselines :
    (∀ (s : TscMode.HighPrecisionClock) (sys_time : ℤ) (tsc_at_now tsc_new : ℕ),
      (s.reset_baselines sys_time tsc_at_now tsc_new).1 =
        { base_tsc := tsc_new, base_datetime := sys_time,
          cpu_frequency_hz := s.cpu_frequency_hz,
          warning_threshold_ns := s.warning_threshold_ns }) ∧
    (∀ (s : FallbackMode.HighPrecisionClock) (sys_time : ℤ) (mono_at_now mono_new : ℕ),
      (s.reset_baselines sys_time mono_at_now mono_new).1 =
        { base_instant := mono_new, base_datetime := sys_time,
          warning_threshold_ns := s.warning_threshold_ns }) :=
  ⟨fun _ _ _ _ => rfl, fun _ _ _ _ => rfl⟩

/-- C5: in the fallback configuration `now()` is exactly the baseline datetime
plus the elapsed nanoseconds of the monotonic source since the baseline
instant — 1:1 tracking with an effective `ns_per_count` of `1.0` and no
conversion-factor calibration — whenever the elapsed time is representable as
an `i64`. -/
theorem C5_fallback_tracks_monotonic_source :
    ∀ (s : FallbackMode.HighPrecisionClock) (mono_now : ℕ),
      s.base_instant ≤ mono_now → mono_now - s.base_instant < 9223372036854775808 →
      s.now mono_now = s.base_datetime + ((mono_now : ℤ) - (s.base_instant : ℤ)) := by
  intro s m hb hlt
  unfold FallbackMode.HighPrecisionClock.now
  rw [u128AsI64_of_lt hlt]
  omega

/-- Witness for C5 at a concrete state and reading. -/
theorem C5_witness :
    (fbSample.base_instant ≤ 3 ∧ 3 - fbSample.base_instant < 9223372036854775808) ∧
    fbSample.now 3 = fbSample.base_datetime + ((3 : ℤ) - (fbSample.base_instant : ℤ)) :=
  ⟨⟨by decide, by decide⟩,
   C5_fallback_tracks_monotonic_source fbSample 3 (by decide) (by decide)⟩

/-- C6: `check_invariant_tsc` returns `None` exactly when the check is not
applicable (fallback-timer mode); in TSC mode it returns `Some(true)` iff the
platform capability metadata contains both the `constant_tsc` and
`nonstop_tsc` flags, and a failure to read the metadata yields `Some(false)`. -/
theorem C6_check_invariant_tsc_contract :
    ∀ (cpuinfo_read : Option String) (cpuinfo : String),
      check_invariant_tsc false cpuinfo_read = none ∧
      check_invariant_tsc true cpuinfo_read ≠ none ∧
      (check_invariant_tsc true (some cpuinfo) = some true ↔
        rustStrContains cpuinfo "constant_tsc" = true ∧
        rustStrContains cpuinfo "nonstop_tsc" = true) ∧
      check_invariant_tsc true none = some false := by
  intro r s
  refine ⟨rfl, ?_, ?_, rfl⟩
  · cases r <;> simp [check_invariant_tsc]
  · simp [check_invariant_tsc, Bool.and_eq_true]

/-- C7 counterexample: no drift-correction tick — under any lock outcome,
clock state (hence any configuration `new` accepts) and inputs — ever changes
the conversion factor, so the multiplicative error-feedback recalibration the
claim requires is not selectable by any configuration. -/
theorem C7_counterexample : ¬ errorFeedbackAdjustsConversionFactor := by
  rintro ⟨lock, s, sys_time, c1, c2, h⟩
  apply h
  cases lock <;> rfl

/-- C7 (amended): only the hard-reset recalibration policy is implemented:
every drift-correction tick either leaves the state untouched (lock failure)
or installs the hard-reset state, and in both cases the conversion factor is
unchanged; no error-feedback slope adjustment exists. -/
theorem C7_only_hard_reset_supported :
    ∀ (lock_acquired : Bool) (s : TscMode.HighPrecisionClock) (sys_time : ℤ)
      (tsc_at_now tsc_new : ℕ),
      ((periodic_drift_correction_tick lock_acquired s sys_time tsc_at_now tsc_new).state = s ∨
        (periodic_drift_correction_tick lock_acquired s sys_time tsc_at_now tsc_new).state =
          (s.reset_baselines sys_time tsc_at_now tsc_new).1) ∧
      (periodic_drift_correction_tick lock_acquired s sys_time tsc_at_now
          tsc_new).state.cpu_frequency_hz = s.cpu_frequency_hz := by
  intro lock s t c1 c2
  cases lock
  · exact ⟨Or.inl rfl, rfl⟩
  · exact ⟨Or.inr rfl, rfl⟩

/-- C8: a tick of the periodic drift-correction loop whose write-lock
acquisition fails logs the failure and skips the tick with the state left
unchanged, and no tick — whatever the lock outcome — terminates the loop. -/
theorem C8_lock_failure_skips_and_loop_survives :
    ∀ (s : TscMode.HighPrecisionClock) (sys_time : ℤ) (tsc_at_now tsc_new : ℕ)
      (lock_acquired : Bool),
      (periodic_drift_correction_tick false s sys_time tsc_at_now tsc_new).state = s ∧
      (periodic_drift_correction_tick false s sys_time tsc_at_now tsc_new).error_logged = true ∧
      (periodic_drift_correction_tick lock_acquired s sys_time tsc_at_now
          tsc_new).loop_continues = true := by
  intro s t c1 c2 lock
  refine ⟨rfl, rfl, ?_⟩
  cases lock <;> rfl

/-- C9 counterexample: the reset is not a wholesale replacement of the clock
state — it issues two separate field writes, and after the first one the
shared state is a mix (new `base_datetime`, old `base_instant`) differing from
both the complete old and the complete new baseline. -/
theorem C9_counterexample :
    (reset_baseline_writes 5 7).length = 2 ∧
    List.foldl applyWrite fbSample ((reset_baseline_writes 5 7).take 1) ≠ fbSample ∧
    List.foldl applyWrite fbSample ((reset_baseline_writes 5 7).take 1) ≠
      (fbSample.reset_baselines 5 3 7).1 ∧
    List.foldl applyWrite fbSample (reset_baseline_writes 5 7) =
      (fbSample.reset_baselines 5 3 7).1 :=
  ⟨rfl, by decide, by decide, by decide⟩

/-- C9 (amended): the baseline fields are updated in place, field by field,
but both writes happen while the supervisor holds the exclusive write lock; a
reader, whose `now()` runs under the read lock and is therefore excluded from
the writer's critical section, observes either the complete old baseline or
the complete new baseline, never the mixed intermediate state. -/
theorem C9_reader_observes_single_generation :
    ∀ (s : FallbackMode.HighPrecisionClock) (sys_time : ℤ) (mono_at_now mono_new : ℕ)
      (w : WriterInterval) (r : ℕ),
      r < w.lock_acquire ∨ w.lock_release < r →
      observedAt s sys_time mono_new w r = s ∨
      observedAt s sys_time mono_new w r =
        (s.reset_baselines sys_time mono_at_now mono_new).1 := by
  intro s t mn m2 w r hr
  unfold observedAt
  rcases hr with h | h
  · left
    rw [if_pos (lt_of_lt_of_le h w.acquire_le)]
    rfl
  · right
    have h1 : ¬ r < w.write_datetime := by
      have ho := w.writes_ordered
      have hg := w.release_ge
      omega
    have h2 : ¬ r < w.write_instant := by
      have hg := w.release_ge
      omega
    rw [if_neg h1, if_neg h2]
    rfl

/-- Witness for C9 (amended): a reader at instant 1, before the writer's
critical section over `[2, 6]`, observes a complete baseline generation. -/
theorem C9_witness :
    ((1:ℕ) < sampleWriterInterval.lock_acquire ∨ sampleWriterInterval.lock_release < 1) ∧
    (observedAt fbSample 5 7 sampleWriterInterval 1 = fbSample ∨
      observedAt fbSample 5 7 sampleWriterInterval 1 = (fbSample.reset_baselines 5 3 7).1) :=
  ⟨Or.inl (by decide),
   C9_reader_observes_single_generation fbSample 5 3 7 sampleWriterInterval 1
     (Or.inl (by decide))⟩

/-- C10 counterexample: with `warning_threshold_ns = 0`, a drift whose
nanosecond count overflows an `i64` is defaulted to 0 ns, and `0 >= 0` still
reports at warning level — so "reported at trace level regardless of
`warning_threshold_ns`" fails for non-positive thresholds. -/
theorem C10_counterexample :
    ((⟨5, 100, 1, 0⟩ : TscMode.HighPrecisionClock).reset_baselines
        (100 + 9223372036854775808) 5 9).2 = LogLevel.warn := by
  have hnow : (⟨5, 100, 1, 0⟩ : TscMode.HighPrecisionClock).now 5 = 100 :=
    TscMode.HighPrecisionClock.now_base _
  show drift_level (0:ℤ)
      ((100 + 9223372036854775808) - (⟨5, 100, 1, 0⟩ : TscMode.HighPrecisionClock).now 5) =
    LogLevel.warn
  rw [hnow]
  decide

/-- C10 (amended): when the drift's nanosecond count is not representable as
an `i64`, the magnitude defaults to 0, so the event is reported at trace level
whenever `warning_threshold_ns` is positive (for a threshold of zero or less
the defaulted 0 still meets the threshold and a warning is reported). -/
theorem C10_overflowing_drift_traces_for_positive_threshold :
    ∀ (s : TscMode.HighPrecisionClock) (sys_time : ℤ) (tsc_at_now tsc_new : ℕ),
      (sys_time - s.now tsc_at_now < I64_MIN ∨ I64_MAX < sys_time - s.now tsc_at_now) →
      0 < s.warning_threshold_ns →
      (s.reset_baselines sys_time tsc_at_now tsc_new).2 = LogLevel.trace := by
  intro s t c1 c2 hover hpos
  have hval : num_nanoseconds (t - s.now c1) = none := by
    unfold num_nanoseconds
    rcases hover with h | h
    · exact if_neg (fun hc => absurd hc.1 (not_le.mpr h))
    · exact if_neg (fun hc => absurd hc.2 (not_le.mpr h))
  have h0 : i64WrapAbs 0 = 0 := by decide
  have hcls : ¬ s.warning_threshold_ns ≤ i64WrapAbs 0 := by
    rw [h0]
    exact not_le.mpr hpos
  simp only [TscMode.HighPrecisionClock.reset_baselines, drift_level, hval, Option.getD_none]
  rw [if_neg hcls]

/-- Witness for C10 (amended): an overflowing drift against threshold 10 is a
trace-level report. -/
theorem C10_witness :
    ((100 + 9223372036854775808 : ℤ) - tscSample.now 5 < I64_MIN ∨
      I64_MAX < (100 + 9223372036854775808 : ℤ) - tscSample.now 5) ∧
    0 < tscSample.warning_threshold_ns ∧
    (tscSample.reset_baselines (100 + 9223372036854775808) 5 9).2 = LogLevel.trace := by
  have hnow : tscSample.now 5 = 100 := TscMode.HighPrecisionClock.now_base tscSample
  have h1 : I64_MAX < (100 + 9223372036854775808 : ℤ) - tscSample.now 5 := by
    rw [hnow]; decide
  exact ⟨Or.inr h1, by decide,
    C10_overflowing_drift_traces_for_positive_threshold tscSample
      (100 + 9223372036854775808) 5 9 (Or.inr h1) (by decide)⟩
